import Mathlib

/-!
Verification of the Simulated Data Clean Room (DCR) engine.

The embedding below follows `SimulatedDataCleanRoom` in `dcr2.py` (the
corrected V2.0 variant of the engine; `dcr.py` holds an earlier revision of
the same class).  Tabular data is modelled as association-list rows; pandas
DataFrame column selection, inner merge, boolean filtering, groupby-size and
sum are translated operation by operation.  Python exceptions raised while
building the store (pandas `KeyError` on a missing column) are modelled with
`Except`, per the usual shallow-embedding convention for fallible code.
Decimal values are modelled as rationals; `round(x, 2)` is modelled as
round-half-to-even at two decimal places.
-/

namespace DCR

/-- A cell value of one of the tabular datasets: string, boolean, or number. -/
inductive Value where
  | s (v : String)
  | b (v : Bool)
  | q (v : ℚ)
deriving DecidableEq

/-- A row of a tabular dataset: an association list from column name to value. -/
abbrev Row := List (String × Value)

/-- Look up a column in a row (first matching entry, like a dict lookup). -/
def rowGet (r : Row) (c : String) : Option Value :=
  (r.find? (fun p => decide (p.1 = c))).map (fun p => p.2)

/-- A raw tabular input: its column schema plus its rows.  Models a pandas
DataFrame handed to `SimulatedDataCleanRoom.__init__`. -/
structure RawTable where
  cols : List String
  rows : List Row
deriving DecidableEq

/-- The columns of side A retained by the store:
`data_a[['email_hashed', 'clicked_ad', 'ad_campaign_id', 'city']]`. -/
def colsA : List String := ["email_hashed", "clicked_ad", "ad_campaign_id", "city"]

/-- The columns of side B retained by the store:
`data_b[['email_hashed', 'purchased', 'purchase_value']]`. -/
def colsB : List String := ["email_hashed", "purchased", "purchase_value"]

/-- Whether a table's schema has every column of `cs`; pandas raises
`KeyError` on `df[cs]` exactly when this fails. -/
def hasCols (t : RawTable) (cs : List String) : Bool :=
  cs.all (fun c => decide (c ∈ t.cols))

/-- Project one row down to the columns `cs` (in that order), dropping every
other entry. -/
def projRow (cs : List String) (r : Row) : Row :=
  cs.filterMap (fun c => (rowGet r c).map (fun v => (c, v)))

/-- `df[cs]`: column selection on a DataFrame; `KeyError` if a column is
missing from the schema. -/
def projectTable (t : RawTable) (cs : List String) : Except String RawTable :=
  match hasCols t cs with
  | true => .ok ⟨cs, t.rows.map (projRow cs)⟩
  | false => .error "KeyError"

/-- The session store built by `SimulatedDataCleanRoom.__init__`: the two
projected relations. -/
structure Store where
  data_a : RawTable
  data_b : RawTable
deriving DecidableEq

/-- `SimulatedDataCleanRoom.__init__`: project side A, then side B; a missing
required column aborts initialization (pandas `KeyError`, modelled as
`Except.error`), so no store is produced. -/
def dcrInit (a b : RawTable) : Except String Store :=
  match projectTable a colsA with
  | .error e => .error e
  | .ok pa =>
    match projectTable b colsB with
    | .error e => .error e
    | .ok pb => .ok ⟨pa, pb⟩

/-- Python whitespace characters recognized by `str.split()`. -/
def isPySpace (c : Char) : Bool :=
  c = ' ' || c = '\t' || c = '\n' || c = '\r' || c = '\x0b' || c = '\x0c'

/-- Worker for `pySplit`: scan the characters, accumulating the current word
reversed; whitespace ends a word, and empty pieces are discarded. -/
def pySplitGo : List Char → List Char → List String
  | [], acc => if acc.isEmpty then [] else [String.mk acc.reverse]
  | c :: cs, acc =>
    if isPySpace c then
      if acc.isEmpty then pySplitGo cs [] else String.mk acc.reverse :: pySplitGo cs []
    else pySplitGo cs (c :: acc)

/-- Python `s.split()`: split on whitespace runs, discarding empty pieces. -/
def pySplit (s : String) : List String := pySplitGo s.toList []

/-- Python `s.upper()` (ASCII, which covers the engine's token alphabet). -/
def strUpper (s : String) : String := String.mk (s.toList.map Char.toUpper)

/-- Python `s[:n]`: the first `n` characters of `s`. -/
def strTake (s : String) (n : Nat) : String := String.mk (s.toList.take n)

/-- `' '.join(query_sql.split()).upper()`: the query normalization of
`execute_query` — collapse whitespace runs to single spaces, uppercase. -/
def normalizeQuery (q : String) : String :=
  strUpper (" ".intercalate (pySplit q))

/-- Python's substring test `needle in hay`. -/
def strContains (hay needle : String) : Bool :=
  hay.toList.tails.any (fun t => needle.toList.isPrefixOf t)

/-- The key of a row: its `email_hashed` value, if present. -/
def keyOf (r : Row) : Option Value := rowGet r "email_hashed"

/-- Whether two rows merge: both keys present and equal (a missing key —
pandas NaN — matches nothing). -/
def rowsMatch (ra rb : Row) : Bool :=
  match keyOf ra, keyOf rb with
  | some ka, some kb => decide (ka = kb)
  | _, _ => false

/-- Drop the join key from a right-side row (pandas keeps a single
`email_hashed` column in the merge output). -/
def dropKey (r : Row) : Row :=
  r.filter (fun p => decide (¬ p.1 = "email_hashed"))

/-- One merged record: the left row followed by the right row minus the key. -/
def mergeRow (ra rb : Row) : Row := ra ++ dropKey rb

/-- `pd.merge(self.data_a, self.data_b, on='email_hashed', how='inner')`:
every pair of rows with equal present keys, in left-row-major order. -/
def mergedData (s : Store) : List Row :=
  s.data_a.rows.flatMap (fun ra =>
    (s.data_b.rows.filter (fun rb => rowsMatch ra rb)).map (fun rb => mergeRow ra rb))

/-- `row[c] == True` for a boolean column. -/
def fieldIsTrue (r : Row) (c : String) : Bool :=
  match rowGet r c with
  | some (.b true) => true
  | _ => false

/-- `merged_data[(merged_data['clicked_ad'] == True) & (merged_data['purchased'] == True)]`. -/
def filterCP (rows : List Row) : List Row :=
  rows.filter (fun r => fieldIsTrue r "clicked_ad" && fieldIsTrue r "purchased")

/-- `result_df['purchase_value'].sum()` (a non-numeric or missing cell
contributes 0; the source data is numeric in this column). -/
def sumPV (rows : List Row) : ℚ :=
  rows.foldr (fun r acc =>
    (match rowGet r "purchase_value" with
     | some (.q v) => v
     | _ => 0) + acc) 0

/-- Python `round` to an integer: round-half-to-even. -/
def bankersRound (y : ℚ) : ℤ :=
  if y - (⌊y⌋ : ℚ) = 1 / 2 then (if ⌊y⌋ % 2 = 0 then ⌊y⌋ else ⌊y⌋ + 1)
  else round y

/-- Python `round(x, 2)`. -/
def round2 (x : ℚ) : ℚ := (bankersRound (x * 100) : ℚ) / 100

/-- `result_df.groupby('city').size().to_dict()`: one entry per distinct
present city value, with the number of rows carrying it. -/
def cityDist (rows : List Row) : List (Value × Nat) :=
  ((rows.map (fun r => rowGet r "city")).dedup).filterMap (fun k =>
    match k with
    | some kv => some (kv, (rows.filter (fun r => decide (rowGet r "city" = some kv))).length)
    | none => none)

/-- The result envelope of `execute_query`: an error mapping, or a typed
success mapping (`count`, `sum_value`, `city_distribution`). -/
inductive QueryResult where
  | error (msg : String)
  | count (n : Nat)
  | sumValue (v : ℚ)
  | cityDistribution (m : List (Value × Nat))
deriving DecidableEq

/-- The privacy-violation refusal message of `execute_query`. -/
def privacyMsg : String :=
  "Consulta violou as regras de privacidade: não é permitido selecionar dados brutos ou identificadores diretos."

/-- The fixed part of the unrecognized-query message. -/
def unrecPre : String :=
  "Consulta SQL não reconhecida pelo parser. Query normalizada: "

/-- The unrecognized-query error payload: the fixed text, the first 200
characters of the normalized query, then an ellipsis. -/
def unrecognizedMsg (qn : String) : String :=
  unrecPre ++ strTake qn 200 ++ "..."

/-- Privacy-guard signature: `"SELECT *" in qn or "SELECT EMAIL_HASHED" in qn
or "SELECT USER_ID" in qn`. -/
def pvTok (qn : String) : Bool :=
  strContains qn "SELECT *" || strContains qn "SELECT EMAIL_HASHED" ||
    strContains qn "SELECT USER_ID"

/-- Branch 1 signature: a count-distinct-key token, aliased or not. -/
def cntTok (qn : String) : Bool :=
  strContains qn "COUNT(DISTINCT T1.EMAIL_HASHED)" ||
    strContains qn "COUNT(DISTINCT EMAIL_HASHED)"

/-- The aliased pair of filter-predicate tokens. -/
def predTok (qn : String) : Bool :=
  strContains qn "T1.CLICKED_AD = TRUE" && strContains qn "T2.PURCHASED = TRUE"

/-- The group-by-city token, aliased or not. -/
def grpTok (qn : String) : Bool :=
  strContains qn "GROUP BY T1.CITY" || strContains qn "GROUP BY CITY"

/-- Branch 2 signature: a sum-of-purchase-value token, aliased or not. -/
def sumTok (qn : String) : Bool :=
  strContains qn "SUM(T2.PURCHASE_VALUE)" || strContains qn "SUM(PURCHASE_VALUE)"

/-- Branch 3 signature: aliased city projection plus aliased count token. -/
def cityTok (qn : String) : Bool :=
  strContains qn "SELECT T1.CITY" && strContains qn "COUNT(DISTINCT T1.EMAIL_HASHED)"

/-- Branch 4 signature: alias-free count over the key. -/
def cnt2Tok (qn : String) : Bool :=
  strContains qn "COUNT(" && strContains qn "EMAIL_HASHED"

/-- Branch 5 signature: alias-free sum over purchase value. -/
def sum2Tok (qn : String) : Bool :=
  strContains qn "SUM(" && strContains qn "PURCHASE_VALUE"

/-- Alias-free clicked-predicate token (branches 4 and 5). -/
def clkTok (qn : String) : Bool := strContains qn "CLICKED_AD = TRUE"

/-- Alias-free purchased-predicate token (branches 4 and 5). -/
def purTok (qn : String) : Bool := strContains qn "PURCHASED = TRUE"

/-- The sequential filters of branches 4 and 5: narrow by `clicked_ad`, then
by `purchased`, each only when its token is present. -/
def seqFilter (qn : String) (rows : List Row) : List Row :=
  let r1 := match clkTok qn with
    | true => rows.filter (fun r => fieldIsTrue r "clicked_ad")
    | false => rows
  match purTok qn with
  | true => r1.filter (fun r => fieldIsTrue r "purchased")
  | false => r1

/-- The body of `execute_query` after normalization: the privacy check, then
the five shape branches in source order, then the unrecognized-query error. -/
def dcrExecNorm (s : Store) (qn : String) : QueryResult :=
  match pvTok qn with
  | true => .error privacyMsg
  | false =>
    match cntTok qn with
    | true =>
      match predTok qn with
      | true =>
        match grpTok qn with
        | true =>
          match (filterCP (mergedData s)).isEmpty with
          | true => .cityDistribution []
          | false => .cityDistribution (cityDist (filterCP (mergedData s)))
        | false => .count (filterCP (mergedData s)).length
      | false => .count (mergedData s).length
    | false =>
      match sumTok qn with
      | true =>
        let rdf := match predTok qn with
          | true => filterCP (mergedData s)
          | false => mergedData s
        match rdf.isEmpty with
        | true => .sumValue 0
        | false => .sumValue (round2 (sumPV rdf))
      | false =>
        match cityTok qn with
        | true =>
          let rdf := match predTok qn with
            | true => filterCP (mergedData s)
            | false => mergedData s
          match rdf.isEmpty with
          | true => .cityDistribution []
          | false => .cityDistribution (cityDist rdf)
        | false =>
          match cnt2Tok qn with
          | true => .count (seqFilter qn (mergedData s)).length
          | false =>
            match sum2Tok qn with
            | true =>
              let rdf := seqFilter qn (mergedData s)
              match rdf.isEmpty with
              | true => .sumValue 0
              | false => .sumValue (round2 (sumPV rdf))
            | false => .error (unrecognizedMsg qn)

/-- `SimulatedDataCleanRoom.execute_query`: normalize, then run the guarded
matcher and aggregator. -/
def dcrExecute (s : Store) (query_sql : String) : QueryResult :=
  dcrExecNorm s (normalizeQuery query_sql)

/-- An error envelope? -/
def isError : QueryResult → Bool
  | .error _ => true
  | _ => false

/-- A success envelope (one of the three typed result mappings)? -/
def isSuccess : QueryResult → Bool
  | .error _ => false
  | _ => true

/-! ### Concrete fixtures used by witnesses and counterexamples -/

/-- A session store with no records on either side. -/
def emptyStore : Store := ⟨⟨colsA, []⟩, ⟨colsB, []⟩⟩

/-- A side-A row whose user did not click. -/
def rowA1 : Row :=
  [("email_hashed", .s "k1"), ("clicked_ad", .b false),
   ("ad_campaign_id", .s "camp_a"), ("city", .s "X")]

/-- A side-B row whose user did not purchase. -/
def rowB1 : Row :=
  [("email_hashed", .s "k1"), ("purchased", .b false), ("purchase_value", .q 10)]

/-- A store with one joinable pair that fails both filter predicates. -/
def storeNoCP : Store := ⟨⟨colsA, [rowA1]⟩, ⟨colsB, [rowB1]⟩⟩

/-- A side-A row whose user clicked. -/
def rowA2 : Row :=
  [("email_hashed", .s "k1"), ("clicked_ad", .b true),
   ("ad_campaign_id", .s "camp_a"), ("city", .s "X")]

/-- A side-B row whose user purchased. -/
def rowB2 : Row :=
  [("email_hashed", .s "k1"), ("purchased", .b true), ("purchase_value", .q 10)]

/-- A store with one joinable pair that passes both filter predicates. -/
def storeCP : Store := ⟨⟨colsA, [rowA2]⟩, ⟨colsB, [rowB2]⟩⟩

/-- A query whose SELECT list names the raw key column behind a table alias. -/
def qAliasKeyCount : String :=
  "SELECT T1.EMAIL_HASHED, COUNT(DISTINCT EMAIL_HASHED) FROM TABLE_A T1 JOIN TABLE_B T2 ON T1.EMAIL_HASHED = T2.EMAIL_HASHED"

/-- A grouped count-distinct query with no WHERE clause. -/
def qGroupNoWhere : String :=
  "SELECT CITY, COUNT(DISTINCT EMAIL_HASHED) FROM JOINED GROUP BY CITY"

/-- The aliased count query with both filter predicates. -/
def qCountP : String :=
  "SELECT COUNT(DISTINCT T1.EMAIL_HASHED) FROM TABLE_A T1 JOIN TABLE_B T2 ON T1.EMAIL_HASHED = T2.EMAIL_HASHED WHERE T1.CLICKED_AD = TRUE AND T2.PURCHASED = TRUE"

/-- `qCountP` with every `T1.`/`T2.` column prefix removed, and nothing else
changed. -/
def qCountBare : String :=
  "SELECT COUNT(DISTINCT EMAIL_HASHED) FROM TABLE_A T1 JOIN TABLE_B T2 ON EMAIL_HASHED = EMAIL_HASHED WHERE CLICKED_AD = TRUE AND PURCHASED = TRUE"

/-- `qCountP` without its WHERE clause. -/
def qCountNP : String :=
  "SELECT COUNT(DISTINCT T1.EMAIL_HASHED) FROM TABLE_A T1 JOIN TABLE_B T2 ON T1.EMAIL_HASHED = T2.EMAIL_HASHED"

/-- The aliased sum query with both filter predicates. -/
def qSumP : String :=
  "SELECT SUM(T2.PURCHASE_VALUE) FROM TABLE_A T1 JOIN TABLE_B T2 ON T1.EMAIL_HASHED = T2.EMAIL_HASHED WHERE T1.CLICKED_AD = TRUE AND T2.PURCHASED = TRUE"

/-- `qSumP` without its WHERE clause. -/
def qSumNP : String :=
  "SELECT SUM(T2.PURCHASE_VALUE) FROM TABLE_A T1 JOIN TABLE_B T2 ON T1.EMAIL_HASHED = T2.EMAIL_HASHED"

/-- The aliased grouped count query with both filter predicates. -/
def qGrpP : String :=
  "SELECT T1.CITY, COUNT(DISTINCT T1.EMAIL_HASHED) FROM TABLE_A T1 JOIN TABLE_B T2 ON T1.EMAIL_HASHED = T2.EMAIL_HASHED WHERE T1.CLICKED_AD = TRUE AND T2.PURCHASED = TRUE GROUP BY T1.CITY"

/-- `qGrpP` without its WHERE clause. -/
def qGrpNP : String :=
  "SELECT T1.CITY, COUNT(DISTINCT T1.EMAIL_HASHED) FROM TABLE_A T1 JOIN TABLE_B T2 ON T1.EMAIL_HASHED = T2.EMAIL_HASHED GROUP BY T1.CITY"

/-- A 300-character unrecognized query (a single long token). -/
def qLong : String := String.mk (List.replicate 300 'Z')

/-! ### Branch lemmas for `dcrExecNorm` -/

/-- When a privacy signature is present, the guard answers first. -/
theorem execNorm_privacy (s : Store) (qn : String) (h : pvTok qn = true) :
    dcrExecNorm s qn = .error privacyMsg := by
  simp only [dcrExecNorm, h]

/-- Branch 1 with both predicates and a group-by token. -/
theorem execNorm_grouped (s : Store) (qn : String) (h0 : pvTok qn = false)
    (h1 : cntTok qn = true) (h2 : predTok qn = true) (h3 : grpTok qn = true) :
    dcrExecNorm s qn =
      .cityDistribution
        (if (filterCP (mergedData s)).isEmpty then [] else cityDist (filterCP (mergedData s))) := by
  simp only [dcrExecNorm, h0, h1, h2, h3]
  cases (filterCP (mergedData s)).isEmpty <;> simp

/-- Branch 1 with both predicates and no group-by token. -/
theorem execNorm_count_pred (s : Store) (qn : String) (h0 : pvTok qn = false)
    (h1 : cntTok qn = true) (h2 : predTok qn = true) (h3 : grpTok qn = false) :
    dcrExecNorm s qn = .count (filterCP (mergedData s)).length := by
  simp only [dcrExecNorm, h0, h1, h2, h3]

/-- Branch 1 without both predicates: an unfiltered plain count, whatever the
group-by tokens say. -/
theorem execNorm_count_nopred (s : Store) (qn : String) (h0 : pvTok qn = false)
    (h1 : cntTok qn = true) (h2 : predTok qn = false) :
    dcrExecNorm s qn = .count (mergedData s).length := by
  simp only [dcrExecNorm, h0, h1, h2]

/-- Branch 2 with both predicate tokens: the aliased sum over the filtered
merged relation. -/
theorem execNorm_sum_pred (s : Store) (qn : String) (h0 : pvTok qn = false)
    (h1 : cntTok qn = false) (h2 : sumTok qn = true) (hp : predTok qn = true) :
    dcrExecNorm s qn =
      (if (filterCP (mergedData s)).isEmpty then .sumValue 0
       else .sumValue (round2 (sumPV (filterCP (mergedData s))))) := by
  simp only [dcrExecNorm, h0, h1, h2, hp]
  cases he : (filterCP (mergedData s)).isEmpty <;> simp [he]

/-- Branch 2 without both predicate tokens: the aliased sum over the full
merged relation. -/
theorem execNorm_sum_nopred (s : Store) (qn : String) (h0 : pvTok qn = false)
    (h1 : cntTok qn = false) (h2 : sumTok qn = true) (hp : predTok qn = false) :
    dcrExecNorm s qn =
      (if (mergedData s).isEmpty then .sumValue 0
       else .sumValue (round2 (sumPV (mergedData s)))) := by
  simp only [dcrExecNorm, h0, h1, h2, hp]
  cases he : (mergedData s).isEmpty <;> simp [he]

/-- Branch 5: the alias-free sum over the sequentially filtered relation. -/
theorem execNorm_sum2 (s : Store) (qn : String) (h0 : pvTok qn = false)
    (h1 : cntTok qn = false) (h2 : sumTok qn = false) (h3 : cityTok qn = false)
    (h4 : cnt2Tok qn = false) (h5 : sum2Tok qn = true) :
    dcrExecNorm s qn =
      (if (seqFilter qn (mergedData s)).isEmpty then .sumValue 0
       else .sumValue (round2 (sumPV (seqFilter qn (mergedData s))))) := by
  simp only [dcrExecNorm, h0, h1, h2, h3, h4, h5]
  cases he : (seqFilter qn (mergedData s)).isEmpty <;> simp [he]

/-- The final fall-through: no signature matched. -/
theorem execNorm_unrecognized (s : Store) (qn : String) (h0 : pvTok qn = false)
    (h1 : cntTok qn = false) (h2 : sumTok qn = false) (h3 : cityTok qn = false)
    (h4 : cnt2Tok qn = false) (h5 : sum2Tok qn = false) :
    dcrExecNorm s qn = .error (unrecognizedMsg qn) := by
  simp only [dcrExecNorm, h0, h1, h2, h3, h4, h5]

/-! ### Claim C1 — privacy guard -/

/-- Claim C1, as stated, is false: `qAliasKeyCount` requests the raw key
column (`T1.EMAIL_HASHED`) in its SELECT list, yet `execute_query` does not
return the privacy refusal — the table alias defeats the literal signature
check, the request passes the guard, and an aggregate count is computed and
returned as a success envelope. -/
theorem c1_counterexample :
    pvTok (normalizeQuery qAliasKeyCount) = false ∧
    dcrExecute emptyStore qAliasKeyCount = QueryResult.count 0 := by decide

/-- Claim C1 (amended): for every query whose normalized text contains one of
the literal, alias-free projection signatures `SELECT *`, `SELECT
EMAIL_HASHED` or `SELECT USER_ID`, `execute_query` returns the privacy
refusal, and the rejection happens before the joined relation is touched: the
answer does not depend on the session store. -/
theorem c1_privacy_guard (s : Store) (q : String)
    (h : pvTok (normalizeQuery q) = true) :
    dcrExecute s q = QueryResult.error privacyMsg ∧
      ∀ s' : Store, dcrExecute s q = dcrExecute s' q := by
  refine ⟨execNorm_privacy s _ h, fun s' => ?_⟩
  have h1 : dcrExecute s q = QueryResult.error privacyMsg := execNorm_privacy s _ h
  have h2 : dcrExecute s' q = QueryResult.error privacyMsg := execNorm_privacy s' _ h
  rw [h1, h2]

/-- Witness for C1: the wildcard projection is refused on a concrete store. -/
theorem c1_witness :
    pvTok (normalizeQuery "SELECT * FROM TABLE_A") = true ∧
    dcrExecute emptyStore "SELECT * FROM TABLE_A" = QueryResult.error privacyMsg :=
  ⟨by decide, (c1_privacy_guard emptyStore "SELECT * FROM TABLE_A" (by decide)).1⟩

/-! ### Claim C2 — grouped shape priority -/

/-- Claim C2, as stated, is false: the normalized text of `qGroupNoWhere`
contains both a COUNT(DISTINCT key) token and a GROUP BY token, yet — having
no WHERE predicates — it classifies as a plain count, not as a grouped
city-distribution. -/
theorem c2_counterexample :
    cntTok (normalizeQuery qGroupNoWhere) = true ∧
    grpTok (normalizeQuery qGroupNoWhere) = true ∧
    dcrExecute emptyStore qGroupNoWhere = QueryResult.count 0 := by decide

/-- Claim C2 (amended): a query whose normalized text contains a
COUNT(DISTINCT key) token, both aliased filter predicates, and a GROUP BY
city token (and no privacy signature) always classifies as the grouped shape
and yields a city-distribution envelope, never a plain count. -/
theorem c2_grouped_priority (s : Store) (q : String)
    (h0 : pvTok (normalizeQuery q) = false)
    (h1 : cntTok (normalizeQuery q) = true)
    (h2 : predTok (normalizeQuery q) = true)
    (h3 : grpTok (normalizeQuery q) = true) :
    dcrExecute s q = QueryResult.cityDistribution
      (if (filterCP (mergedData s)).isEmpty then []
       else cityDist (filterCP (mergedData s))) :=
  execNorm_grouped s _ h0 h1 h2 h3

/-- Witness for C2: the canonical grouped query on a store with one
converting user yields its city distribution. -/
theorem c2_witness :
    dcrExecute storeCP qGrpP = QueryResult.cityDistribution [(Value.s "X", 1)] := by
  have h := c2_grouped_priority storeCP qGrpP (by decide) (by decide) (by decide) (by decide)
  rw [h]; decide

/-! ### Claim C3 — normalization robustness -/

/-- Claim C3, as stated, is false: `qCountP` and `qCountBare` differ only in
table aliasing (every `T1.`/`T2.` column prefix removed, nothing else
changed), yet against the same session one counts the predicate-filtered join
(0 records) and the other the unfiltered join (1 record). -/
theorem c3_counterexample :
    dcrExecute storeNoCP qCountP = QueryResult.count 0 ∧
    dcrExecute storeNoCP qCountBare = QueryResult.count 1 := by decide

/-- Claim C3 (amended): two query texts with the same normalized form — in
particular, texts differing only in whitespace runs or letter case, which
normalization erases — classify identically and yield identical result
envelopes against the same session.  Alias differences are not erased. -/
theorem c3_normalization (s : Store) (q1 q2 : String)
    (h : normalizeQuery q1 = normalizeQuery q2) :
    dcrExecute s q1 = dcrExecute s q2 := by
  unfold dcrExecute
  rw [h]

/-- Witness for C3: a lowercase, raggedly spaced variant of the canonical
count query normalizes identically and produces the same envelope. -/
theorem c3_witness :
    normalizeQuery "select  count(distinct t1.email_hashed)\n from table_a t1 join table_b t2 on t1.email_hashed = t2.email_hashed  where t1.clicked_ad = true and t2.purchased = true" =
      normalizeQuery qCountP ∧
    dcrExecute storeNoCP "select  count(distinct t1.email_hashed)\n from table_a t1 join table_b t2 on t1.email_hashed = t2.email_hashed  where t1.clicked_ad = true and t2.purchased = true" =
      dcrExecute storeNoCP qCountP :=
  ⟨by decide, c3_normalization storeNoCP _ _ (by decide)⟩

/-! ### Claim C5 — filter predicates as optional modifiers -/

/-- Claim C5, as stated, is false: for the grouped shape the filter
predicates are not optional — `qGrpP` (with predicates) classifies as a city
distribution while `qGrpNP` (the same query with its WHERE clause removed)
classifies as a plain count. -/
theorem c5_counterexample :
    dcrExecute storeCP qGrpP = QueryResult.cityDistribution [(Value.s "X", 1)] ∧
    dcrExecute storeCP qGrpNP = QueryResult.count 1 := by decide

/-- Claim C5 (amended): for the plain count-distinct and sum shapes the
predicates `clicked = true` and `purchased = true` are optional modifiers —
with them and without them the query classifies as the same shape, the
predicates only narrowing the aggregated records (the filtered relation is a
sublist of the merged one) — but for the grouped shape dropping the
predicates changes the classification to a plain count. -/
theorem c5_predicates_optional (s : Store) :
    dcrExecute s qCountP = QueryResult.count (filterCP (mergedData s)).length ∧
    dcrExecute s qCountNP = QueryResult.count (mergedData s).length ∧
    (filterCP (mergedData s)).Sublist (mergedData s) ∧
    dcrExecute s qSumP =
      (if (filterCP (mergedData s)).isEmpty then QueryResult.sumValue 0
       else QueryResult.sumValue (round2 (sumPV (filterCP (mergedData s))))) ∧
    dcrExecute s qSumNP =
      (if (mergedData s).isEmpty then QueryResult.sumValue 0
       else QueryResult.sumValue (round2 (sumPV (mergedData s)))) := by
  refine ⟨?_, ?_, List.filter_sublist _, ?_, ?_⟩
  · exact execNorm_count_pred s _ (by decide) (by decide) (by decide) (by decide)
  · exact execNorm_count_nopred s _ (by decide) (by decide) (by decide)
  · exact execNorm_sum_pred s _ (by decide) (by decide) (by decide) (by decide)
  · exact execNorm_sum_nopred s _ (by decide) (by decide) (by decide) (by decide)

/-! ### Claim C6 — empty-result handling -/

/-- If the branch-1 token is absent, so is the branch-3 signature (its
second conjunct is branch 1's first disjunct). -/
theorem cityTok_eq_false (qn : String) (h : cntTok qn = false) : cityTok qn = false := by
  have ha : strContains qn "COUNT(DISTINCT T1.EMAIL_HASHED)" = false := by
    revert h
    unfold cntTok
    cases strContains qn "COUNT(DISTINCT T1.EMAIL_HASHED)" <;> simp
  unfold cityTok
  rw [ha, Bool.and_false]

/-- The alias-free sum query with spaced parentheses (reaches branch 5). -/
def qSumBare : String := "SELECT SUM( PURCHASE_VALUE ) FROM JOINED"

/-- Claim C6: a recognized sum query — aliased (branch 2) or alias-free
(branch 5) — or a recognized grouped count query whose filter matches zero
joined records yields the successful envelope `sum_value 0.0` or an empty
`city_distribution`, never an error. -/
theorem c6_empty_result (s : Store) (q : String) :
    (pvTok (normalizeQuery q) = false → cntTok (normalizeQuery q) = true →
      predTok (normalizeQuery q) = true → grpTok (normalizeQuery q) = true →
      (filterCP (mergedData s)).isEmpty = true →
      dcrExecute s q = QueryResult.cityDistribution []) ∧
    (pvTok (normalizeQuery q) = false → cntTok (normalizeQuery q) = false →
      sumTok (normalizeQuery q) = true →
      (if predTok (normalizeQuery q) then filterCP (mergedData s)
       else mergedData s).isEmpty = true →
      dcrExecute s q = QueryResult.sumValue 0) ∧
    (pvTok (normalizeQuery q) = false → cntTok (normalizeQuery q) = false →
      sumTok (normalizeQuery q) = false → cnt2Tok (normalizeQuery q) = false →
      sum2Tok (normalizeQuery q) = true →
      (seqFilter (normalizeQuery q) (mergedData s)).isEmpty = true →
      dcrExecute s q = QueryResult.sumValue 0) := by
  refine ⟨?_, ?_, ?_⟩
  · intro h0 h1 h2 h3 he
    have h := execNorm_grouped s (normalizeQuery q) h0 h1 h2 h3
    show dcrExecNorm s (normalizeQuery q) = _
    rw [h, if_pos he]
  · intro h0 h1 h2 he
    show dcrExecNorm s (normalizeQuery q) = _
    cases hp : predTok (normalizeQuery q)
    · rw [hp, if_neg (by simp)] at he
      rw [execNorm_sum_nopred s _ h0 h1 h2 hp, if_pos he]
    · rw [hp, if_pos rfl] at he
      rw [execNorm_sum_pred s _ h0 h1 h2 hp, if_pos he]
  · intro h0 h1 h2 h4 h5 he
    show dcrExecNorm s (normalizeQuery q) = _
    rw [execNorm_sum2 s _ h0 h1 h2 (cityTok_eq_false _ h1) h4 h5, if_pos he]

/-- Witness for C6: against the empty session, the grouped query, the
aliased sum query and the alias-free sum query each filter to zero records
and produce the empty-success envelopes. -/
theorem c6_witness :
    dcrExecute emptyStore qGrpP = QueryResult.cityDistribution [] ∧
    dcrExecute emptyStore qSumP = QueryResult.sumValue 0 ∧
    dcrExecute emptyStore qSumBare = QueryResult.sumValue 0 :=
  ⟨(c6_empty_result emptyStore qGrpP).1 (by decide) (by decide) (by decide) (by decide)
      (by decide),
   (c6_empty_result emptyStore qSumP).2.1 (by decide) (by decide) (by decide) (by decide),
   (c6_empty_result emptyStore qSumBare).2.2 (by decide) (by decide) (by decide) (by decide)
      (by decide) (by decide)⟩

/-! ### Claim C9 — unrecognized queries -/

/-- A middle segment is always found by the substring test. -/
theorem strContains_append (p m t : String) : strContains (p ++ m ++ t) m = true := by
  unfold strContains
  rw [List.any_eq_true]
  refine ⟨m.toList ++ t.toList, ?_, ?_⟩
  · rw [List.mem_tails]
    have hl : (p ++ m ++ t).toList = p.toList ++ (m.toList ++ t.toList) := by
      simp only [String.toList, String.data_append, List.append_assoc]
    rw [hl]
    exact List.suffix_append _ _
  · rw [ List.isPrefixOf_iff_prefix]
    exact List.prefix_append _ _

set_option maxRecDepth 8192 in
/-- Claim C9, as stated, is false on long queries: `qLong` normalizes to a
300-character text, passes the privacy check and matches no shape, but the
error payload carries only the first 200 characters of the normalized text —
the normalized text itself is not contained in the payload. -/
theorem c9_counterexample :
    dcrExecute emptyStore qLong = QueryResult.error (unrecognizedMsg (normalizeQuery qLong)) ∧
    strContains (unrecognizedMsg (normalizeQuery qLong)) (normalizeQuery qLong) = false := by
  constructor
  · decide
  · decide

/-- Claim C9 (amended): a query that passes the privacy check and matches no
shape signature yields the unrecognized-query error, whose payload includes
the first 200 characters of the normalized query text (hence the whole text
whenever it does not exceed 200 characters); no shape is guessed and no
aggregate is computed. -/
theorem c9_unrecognized (s : Store) (q : String)
    (h0 : pvTok (normalizeQuery q) = false)
    (h1 : cntTok (normalizeQuery q) = false)
    (h2 : sumTok (normalizeQuery q) = false)
    (h4 : cnt2Tok (normalizeQuery q) = false)
    (h5 : sum2Tok (normalizeQuery q) = false) :
    dcrExecute s q = QueryResult.error (unrecognizedMsg (normalizeQuery q)) ∧
    strContains (unrecognizedMsg (normalizeQuery q)) (strTake (normalizeQuery q) 200) = true :=
  ⟨execNorm_unrecognized s _ h0 h1 h2 (cityTok_eq_false _ h1) h4 h5,
   strContains_append unrecPre (strTake (normalizeQuery q) 200) "..."⟩

/-- Witness for C9 at a concrete unmatched query. -/
theorem c9_witness :
    dcrExecute emptyStore "HELLO WORLD" =
      QueryResult.error (unrecognizedMsg (normalizeQuery "HELLO WORLD")) ∧
    strContains (unrecognizedMsg (normalizeQuery "HELLO WORLD"))
      (strTake (normalizeQuery "HELLO WORLD") 200) = true :=
  c9_unrecognized emptyStore "HELLO WORLD" (by decide) (by decide) (by decide) (by decide)
    (by decide)

/-! ### Claim C4 — schema errors at load time -/

/-- Claim C4: if either input is missing a required column, store
construction fails with the schema error surfaced as an explicit result
value (the pandas `KeyError`, modelled as `Except.error`), and no store —
partial or otherwise — is produced. -/
theorem c4_schema_error (a b : RawTable)
    (h : hasCols a colsA = false ∨ hasCols b colsB = false) :
    dcrInit a b = Except.error "KeyError" ∧ ∀ st : Store, dcrInit a b ≠ Except.ok st := by
  have he : dcrInit a b = Except.error "KeyError" := by
    rcases h with h | h
    · simp only [dcrInit, projectTable, h]
    · cases ha : hasCols a colsA <;> simp only [dcrInit, projectTable, ha, h]
  refine ⟨he, fun st hst => ?_⟩
  rw [he] at hst
  exact Except.noConfusion hst

/-- An input for side A lacking the required `city` column. -/
def rawAMissing : RawTable := ⟨["email_hashed", "clicked_ad", "ad_campaign_id"], []⟩

/-- A well-formed (empty) input for side B. -/
def rawBOk : RawTable := ⟨colsB, []⟩

/-- Witness for C4: loading a side-A input without its `city` column fails. -/
theorem c4_witness :
    hasCols rawAMissing colsA = false ∧
    dcrInit rawAMissing rawBOk = Except.error "KeyError" :=
  ⟨by decide, (c4_schema_error rawAMissing rawBOk (Or.inl (by decide))).1⟩

/-! ### Claim C7 — inner-join correctness -/

/-- When the left row's key is `ka`, matching a right row means exactly that
its key is `some ka`. -/
theorem rowsMatch_key (ra rb : Row) (ka : Value) (ha : keyOf ra = some ka) :
    rowsMatch ra rb = decide (keyOf rb = some ka) := by
  unfold rowsMatch
  rw [ha]
  cases hb : keyOf rb
  · simp
  · simp [eq_comm]

/-- Over a right side with pairwise-distinct keys, each left key matches at
most one right row: the matching sublist has length 1 or 0 according to
membership of the key. -/
theorem count_key (ka : Value) (B : List Row) (hnd : (B.map keyOf).Nodup) :
    (B.filter (fun rb => decide (keyOf rb = some ka))).length =
      if some ka ∈ B.map keyOf then 1 else 0 := by
  induction B with
  | nil => simp
  | cons rb B ih =>
    rw [List.map_cons, List.nodup_cons] at hnd
    by_cases hk : keyOf rb = some ka
    · rw [List.filter_cons_of_pos (by simpa using hk)]
      have h0 : some ka ∉ B.map keyOf := fun hm => hnd.1 (hk ▸ hm)
      rw [List.length_cons, ih hnd.2, if_neg h0, if_pos (by simp [hk])]
    · rw [List.filter_cons_of_neg (by simpa using hk)]
      rw [ih hnd.2, List.map_cons]
      have hiff : some ka ∈ keyOf rb :: B.map keyOf ↔ some ka ∈ B.map keyOf := by
        simp only [List.mem_cons, or_iff_right_iff_imp]
        intro hh
        exact absurd hh.symm hk
      rw [if_congr hiff rfl rfl]

/-- Length of the inner join: with present left keys and distinct right
keys, each left row contributes one merged record when its key occurs on the
right, none otherwise. -/
theorem merged_length (A B : List Row)
    (hA : ∀ r ∈ A, (keyOf r).isSome) (hndB : (B.map keyOf).Nodup) :
    (A.flatMap (fun ra => (B.filter (fun rb => rowsMatch ra rb)).map (fun rb => mergeRow ra rb))).length =
      ((A.map keyOf).filter (fun k => decide (k ∈ B.map keyOf))).length := by
  induction A with
  | nil => simp
  | cons ra A ih =>
    rw [List.flatMap_cons, List.length_append, List.length_map]
    obtain ⟨ka, hka⟩ := Option.isSome_iff_exists.mp (hA ra (List.mem_cons_self ra A))
    have hfc : B.filter (fun rb => rowsMatch ra rb) =
        B.filter (fun rb => decide (keyOf rb = some ka)) :=
      List.filter_congr (fun rb _ => rowsMatch_key ra rb ka hka)
    rw [hfc, count_key ka B hndB, List.map_cons, List.filter_cons,
      ih (fun r hr => hA r (List.mem_cons_of_mem ra hr))]
    rw [hka]
    by_cases hm : some ka ∈ B.map keyOf
    · simp [hm]
      omega
    · simp [hm]

/-- A nodup list filtered by membership in another list counts exactly the
intersection of the corresponding finite sets. -/
theorem filter_mem_length_eq_card (A B : List (Option Value)) (hA : A.Nodup) :
    (A.filter (fun k => decide (k ∈ B))).length = (A.toFinset ∩ B.toFinset).card := by
  have h1 : (A.filter (fun k => decide (k ∈ B))).Nodup := hA.filter _
  rw [← List.toFinset_card_of_nodup h1]
  congr 1
  ext x
  simp [List.mem_toFinset, List.mem_filter, Finset.mem_inter]

/-- Claim C7: with keys present and unique on each side, the inner join has
exactly one record per key in the intersection of the two key sets, and
every merged record comes from a matching pair — records with no counterpart
never reach the joined relation. -/
theorem c7_join_correctness (s : Store)
    (hA : ∀ r ∈ s.data_a.rows, (keyOf r).isSome)
    (hB : ∀ r ∈ s.data_b.rows, (keyOf r).isSome)
    (hAn : (s.data_a.rows.map keyOf).Nodup)
    (hBn : (s.data_b.rows.map keyOf).Nodup) :
    (mergedData s).length =
      ((s.data_a.rows.map keyOf).toFinset ∩ (s.data_b.rows.map keyOf).toFinset).card ∧
    ∀ rm ∈ mergedData s, ∃ ra ∈ s.data_a.rows, ∃ rb ∈ s.data_b.rows,
      rowsMatch ra rb = true ∧ rm = mergeRow ra rb := by
  constructor
  · have hm : (mergedData s).length =
        ((s.data_a.rows.map keyOf).filter
          (fun k => decide (k ∈ s.data_b.rows.map keyOf))).length :=
      merged_length s.data_a.rows s.data_b.rows hA hBn
    rw [hm, filter_mem_length_eq_card _ _ hAn]
  · intro rm hrm
    unfold mergedData at hrm
    rw [List.mem_flatMap] at hrm
    obtain ⟨ra, hra, hrm⟩ := hrm
    rw [List.mem_map] at hrm
    obtain ⟨rb, hrb, heq⟩ := hrm
    rw [List.mem_filter] at hrb
    exact ⟨ra, hra, rb, hrb.1, hrb.2, heq.symm⟩

/-- Witness for C7 on a concrete store with one shared key. -/
theorem c7_witness :
    (mergedData storeCP).length =
      ((storeCP.data_a.rows.map keyOf).toFinset ∩ (storeCP.data_b.rows.map keyOf).toFinset).card :=
  (c7_join_correctness storeCP (by decide) (by decide) (by decide) (by decide)).1

/-! ### Claim C8 — ingestion keeps only permitted fields -/

/-- Extend a raw table with one extra column (one value per row). -/
def addCol (t : RawTable) (c : String) (vs : List Value) : RawTable :=
  ⟨t.cols ++ [c], (t.rows.zip vs).map (fun p => p.1 ++ [(c, p.2)])⟩

/-- Looking up a different column ignores an appended entry. -/
theorem rowGet_append_one (r : Row) (c c' : String) (v : Value) (h : ¬ c' = c) :
    rowGet (r ++ [(c, v)]) c' = rowGet r c' := by
  unfold rowGet
  rw [List.find?_append]
  cases hf : r.find? (fun p => decide (p.1 = c'))
  · have h2 : ¬ c = c' := fun hh => h hh.symm
    simp [List.find?_cons, h2]
  · simp [hf]

/-- Projection to columns not containing `c` ignores an appended `c` entry. -/
theorem projRow_append_one (cs : List String) (r : Row) (c : String) (v : Value)
    (h : ¬ c ∈ cs) : projRow cs (r ++ [(c, v)]) = projRow cs r := by
  unfold projRow
  apply List.filterMap_congr
  intro c' hc'
  rw [rowGet_append_one r c c' v (fun he => h (he ▸ hc'))]

/-- The schema check ignores an appended non-required column. -/
theorem hasCols_addCol (t : RawTable) (c : String) (vs : List Value) (cs : List String)
    (h : ¬ c ∈ cs) : hasCols (addCol t c vs) cs = hasCols t cs := by
  unfold hasCols addCol
  induction cs with
  | nil => rfl
  | cons c' cs ih =>
    simp only [List.mem_cons, not_or] at h
    simp only [List.all_cons, ih h.2]
    have : (c' ∈ t.cols ++ [c]) ↔ c' ∈ t.cols := by
      simp only [List.mem_append, List.mem_singleton, or_iff_left_iff_imp]
      intro hh
      exact absurd hh.symm h.1
    rw [decide_eq_decide.mpr this]

/-- Projecting rows extended by a non-projected column gives the projections
of the original rows. -/
theorem zip_append_proj (cs : List String) (c : String) (hc : ¬ c ∈ cs) :
    ∀ (rows : List Row) (vs : List Value), rows.length = vs.length →
      (rows.zip vs).map (fun p => projRow cs (p.1 ++ [(c, p.2)])) =
        rows.map (projRow cs) := by
  intro rows
  induction rows with
  | nil => intro vs _; simp
  | cons r rows ih =>
    intro vs hlen
    cases vs with
    | nil => simp at hlen
    | cons v vs =>
      simp only [List.zip_cons_cons, List.map_cons]
      rw [projRow_append_one cs r c v hc, ih vs (by simpa using hlen)]

/-- Column selection is unchanged by an extra non-selected column. -/
theorem projectTable_addCol (t : RawTable) (c : String) (vs : List Value)
    (cs : List String) (hc : ¬ c ∈ cs) (hlen : vs.length = t.rows.length) :
    projectTable (addCol t c vs) cs = projectTable t cs := by
  unfold projectTable
  rw [hasCols_addCol t c vs cs hc]
  cases hasCols t cs
  · rfl
  · have hrows : ((addCol t c vs).rows).map (projRow cs) = t.rows.map (projRow cs) := by
      show ((t.rows.zip vs).map (fun p => p.1 ++ [(c, p.2)])).map (projRow cs) =
        t.rows.map (projRow cs)
      rw [List.map_map]
      exact zip_append_proj cs c hc t.rows vs hlen.symm
    rw [hrows]

/-- Inverting a successful load: the store holds exactly the two projected
relations. -/
theorem dcrInit_ok (a b : RawTable) (st : Store) (h : dcrInit a b = Except.ok st) :
    st.data_a = ⟨colsA, a.rows.map (projRow colsA)⟩ ∧
    st.data_b = ⟨colsB, b.rows.map (projRow colsB)⟩ := by
  unfold dcrInit projectTable at h
  cases ha : hasCols a colsA <;> rw [ha] at h
  · exact Except.noConfusion h
  · cases hb : hasCols b colsB <;> rw [hb] at h
    · exact Except.noConfusion h
    · injection h with h
      rw [← h]
      exact ⟨rfl, rfl⟩

/-- Every entry of a projected row carries a projected column name. -/
theorem projRow_mem (cs : List String) (r : Row) (p : String × Value)
    (hp : p ∈ projRow cs r) : p.1 ∈ cs := by
  unfold projRow at hp
  rw [List.mem_filterMap] at hp
  obtain ⟨c, hc, hmap⟩ := hp
  cases hg : rowGet r c with
  | none =>
    rw [hg] at hmap
    exact Option.noConfusion hmap
  | some v =>
    rw [hg] at hmap
    have h2 : (c, v) = p := Option.some_inj.mp hmap
    rw [← h2]
    exact hc

/-- Claim C8: a successfully loaded store retains only the enumerated
permitted fields on each side and in the joined relation, and extending a
raw input with any extra column (for example `user_id` or `email_original`)
leaves load — and hence every later result envelope — unchanged. -/
theorem c8_ingestion_projection :
    (∀ (a b : RawTable) (st : Store), dcrInit a b = Except.ok st →
      st.data_a.cols = colsA ∧ st.data_b.cols = colsB ∧
      (∀ r ∈ st.data_a.rows, ∀ p ∈ r, p.1 ∈ colsA) ∧
      (∀ r ∈ st.data_b.rows, ∀ p ∈ r, p.1 ∈ colsB) ∧
      (∀ r ∈ mergedData st, ∀ p ∈ r, p.1 ∈ colsA ∨ p.1 ∈ colsB)) ∧
    (∀ (a b : RawTable) (c : String) (vs : List Value), ¬ c ∈ colsA →
      vs.length = a.rows.length → dcrInit (addCol a c vs) b = dcrInit a b) ∧
    (∀ (a b : RawTable) (c : String) (vs : List Value), ¬ c ∈ colsB →
      vs.length = b.rows.length → dcrInit a (addCol b c vs) = dcrInit a b) := by
  refine ⟨?_, ?_, ?_⟩
  · intro a b st h
    obtain ⟨h1, h2⟩ := dcrInit_ok a b st h
    have hmemA : ∀ r ∈ st.data_a.rows, ∀ p ∈ r, p.1 ∈ colsA := by
      intro r hr p hp
      rw [h1] at hr
      rw [List.mem_map] at hr
      obtain ⟨r0, _, hr0⟩ := hr
      exact projRow_mem colsA r0 p (hr0 ▸ hp)
    have hmemB : ∀ r ∈ st.data_b.rows, ∀ p ∈ r, p.1 ∈ colsB := by
      intro r hr p hp
      rw [h2] at hr
      rw [List.mem_map] at hr
      obtain ⟨r0, _, hr0⟩ := hr
      exact projRow_mem colsB r0 p (hr0 ▸ hp)
    refine ⟨by rw [h1], by rw [h2], hmemA, hmemB, ?_⟩
    intro rm hrm p hp
    unfold mergedData at hrm
    rw [List.mem_flatMap] at hrm
    obtain ⟨ra, hra, hrm⟩ := hrm
    rw [List.mem_map] at hrm
    obtain ⟨rb, hrb, heq⟩ := hrm
    rw [List.mem_filter] at hrb
    rw [← heq] at hp
    unfold mergeRow at hp
    rw [List.mem_append] at hp
    rcases hp with hp | hp
    · exact Or.inl (hmemA ra hra p hp)
    · exact Or.inr (hmemB rb hrb.1 p (List.mem_of_mem_filter hp))
  · intro a b c vs hc hlen
    unfold dcrInit
    rw [projectTable_addCol a c vs colsA hc hlen]
  · intro a b c vs hc hlen
    unfold dcrInit
    rw [projectTable_addCol b c vs colsB hc hlen]

/-- Witness for C8: a concrete load keeps the permitted schemas, and adding
a `user_id` column to the raw side-A input changes nothing. -/
theorem c8_witness :
    (storeCP.data_a.cols = colsA ∧ storeCP.data_b.cols = colsB) ∧
    dcrInit (addCol ⟨colsA, [rowA2]⟩ "user_id" [Value.s "u1"]) ⟨colsB, [rowB2]⟩ =
      dcrInit ⟨colsA, [rowA2]⟩ ⟨colsB, [rowB2]⟩ := by
  constructor
  · have h := c8_ingestion_projection.1 ⟨colsA, [rowA2]⟩ ⟨colsB, [rowB2]⟩ storeCP (by rfl)
    exact ⟨h.1, h.2.1⟩
  · exact c8_ingestion_projection.2.1 ⟨colsA, [rowA2]⟩ ⟨colsB, [rowB2]⟩ "user_id"
      [Value.s "u1"] (by decide) (by decide)

/-! ### Claim C10 — total, single-form envelopes -/

/-- Claim C10: `execute_query` is total and yields exactly one of the two
envelope forms — the error mapping or a typed success mapping — never both.
Every operation of the guarded region is total in this embedding, so no
exception escapes. -/
theorem c10_envelope_dichotomy (s : Store) (q : String) :
    (isError (dcrExecute s q) = true ∧ isSuccess (dcrExecute s q) = false) ∨
    (isError (dcrExecute s q) = false ∧ isSuccess (dcrExecute s q) = true) := by
  cases h : dcrExecute s q <;> simp [isError, isSuccess]

end DCR
